import Mathlib

/-!
Verification development for the `bibo_21008` plotting library.

This file gives a shallow embedding of the data-handling core of the
repository's choropleth map builders and style helpers:

* `electoral_maps.py`: `create_td_election_map` (long vote table → pivot →
  left-merge onto geometry → global color bounds → interactive figure) and
  `create_simplified_election_map` (dict of per-candidate vote series →
  index-merge → global color bounds → interactive figure);
* `plots.py`: `bokeh_td_election_map` (single value column → color bounds
  with empty/degenerate handling → auto-centered viewport) and `_get_color`;
* `styles.py`: the `BiboStyle` palette.

Numeric vote values are modelled as rationals (ℚ), tables as lists of rows,
pandas missing values (NaN) as `Option`, and Python exceptions as
`Except String` (an `.error` models an exception propagating to the caller).
Purely cosmetic parameters (pixel sizes, alpha, tooltips) and the rendering
side effects of `bokeh.show` are not part of the returned data and are not
modelled; the `show_plot` flag is kept as an (unread, exactly as in the
source) argument of the builders.
-/

/-- Kernel-computable lexicographic comparison on character lists, used to
model the lexicographic ordering of pandas column/index labels. -/
def chListLe : List Char → List Char → Bool
  | [], _ => true
  | _ :: _, [] => false
  | a :: as, b :: bs =>
    if a.toNat < b.toNat then true
    else if b.toNat < a.toNat then false
    else chListLe as bs

/-- Lexicographic ordering on strings (kernel-computable). -/
def strLe (a b : String) : Bool := chListLe a.data b.data

/-- Sorting a list of labels lexicographically, as `pandas.pivot_table`
sorts its index and column labels. -/
def strSort (l : List String) : List String :=
  l.insertionSort (fun a b => strLe a b = true)

/-- One row of the long-format election CSV (`df_elections` in
`create_td_election_map`): columns `moughataa`, `candidate`, `year`,
`nb_votes`. -/
structure VoteRow where
  moughataa : String
  candidate : String
  year : Int
  nb_votes : ℚ
deriving DecidableEq, Repr

/-- One row of the geometry table loaded from the shapefile, after the
rename `ADM2_EN → moughataa`; the polygon itself is abstracted to an
opaque identifier `geom`. -/
structure GeoRow where
  moughataa : String
  geom : Nat
deriving DecidableEq, Repr

/-- A geometry frame: its rows plus its `total_bounds`
(minx, miny, maxx, maxy). `bounds = none` models `total_bounds` raising. -/
structure GeoFrame where
  rows : List GeoRow
  bounds : Option (ℚ × ℚ × ℚ × ℚ)
deriving DecidableEq, Repr

/-- A GeoDataFrame as loaded: the frame, its CRS (EPSG code, `none` models a
missing CRS), and the result of `to_crs(epsg=3857)` on it (`none` models
`to_crs` raising; re-running `to_crs` on the same frame gives the same
outcome). -/
structure Gdf where
  frame : GeoFrame
  crs : Option Int
  conv3857 : Option GeoFrame
deriving DecidableEq, Repr

/-- `df_elections.query(f"year == {year}")`: keep the rows of the requested
year. -/
def filterYear (df : List VoteRow) (year : Int) : List VoteRow :=
  df.filter (fun r => decide (r.year = year))

/-- Index labels of `df_year.pivot_table(index='moughataa', ...)`: the
distinct `moughataa` values, sorted as pandas sorts index labels. -/
def pivotRegions (rows : List VoteRow) : List String :=
  strSort (rows.map (fun r => r.moughataa)).dedup

/-- Column labels of `df_year.pivot_table(columns='candidate', ...)`: the
distinct `candidate` values, sorted as pandas sorts column labels. -/
def pivotCandidates (rows : List VoteRow) : List String :=
  strSort (rows.map (fun r => r.candidate)).dedup

/-- Cell value of the pivot table at region `r`, candidate `c`: the mean of
the matching `nb_votes` (the default `aggfunc` of `pivot_table`), with
`fill_value=0` for combinations that have no matching row. -/
def pivotValue (rows : List VoteRow) (r c : String) : ℚ :=
  let ms := rows.filter (fun x => decide (x.moughataa = r ∧ x.candidate = c))
  if ms.length = 0 then 0 else (ms.map (fun x => x.nb_votes)).sum / (ms.length : ℚ)

/-- The wide (pivoted) vote table: index labels, column labels, and the cell
values. -/
structure PivotTable where
  index : List String
  columns : List String
  value : String → String → ℚ

/-- `df_year.pivot_table(index='moughataa', columns='candidate',
values='nb_votes', fill_value=0)`. -/
def pivotTable (dfYear : List VoteRow) : PivotTable :=
  ⟨pivotRegions dfYear, pivotCandidates dfYear, pivotValue dfYear⟩

/-- One row of the merged table kept for Bokeh: the region identifier, its
geometry, and its per-candidate vote values (after `fillna(0)` every
candidate column holds a number, never a missing value). -/
structure MergedRow where
  moughataa : String
  geom : Nat
  votes : String → ℚ

/-- `gdf.merge(df_pivot, on="moughataa", how="left").fillna(0)`: every
geometry row is kept; a row whose `moughataa` appears in the pivot index
takes that pivot row's candidate values, and an unmatched row gets NaN in
every candidate column, which `fillna(0)` turns into 0. -/
def mergeLeft (gdfRows : List GeoRow) (pv : PivotTable) : List MergedRow :=
  gdfRows.map (fun g =>
    if g.moughataa ∈ pv.index then
      ⟨g.moughataa, g.geom, pv.value g.moughataa⟩
    else
      ⟨g.moughataa, g.geom, fun _ => 0⟩)

/-- `merged[candidats].values`: all vote values of all candidate columns of
the merged table, flattened. -/
def allVotes (merged : List MergedRow) (candidats : List String) : List ℚ :=
  (merged.map (fun m => candidats.map m.votes)).flatten

/-- `numpy.min` over a nonempty collection (the `[]` case is never the value
actually used: the code path guards it by an emptiness check that models
numpy raising on an empty array). -/
def listMin : List ℚ → ℚ
  | [] => 0
  | x :: xs => xs.foldl min x

/-- `numpy.max` over a nonempty collection, as `listMin`. -/
def listMax : List ℚ → ℚ
  | [] => 0
  | x :: xs => xs.foldl max x

/-- CRS handling of `create_td_election_map` (electoral_maps.py lines
88–96): if the CRS is missing or not EPSG:3857, try `to_crs(epsg=3857)`;
on failure, the `except` block retries `to_crs` inside a second `try` whose
`except` is `pass`, so a conversion failure leaves the frame unchanged. -/
def tdConvert (g : Gdf) : GeoFrame :=
  if g.crs = some 3857 then g.frame
  else
    match g.conv3857 with
    | some f => f
    | none => g.frame

/-- Viewport computation of `create_td_election_map` (lines 159–169): pad
the total bounds by 8% (with fixed pads when an extent is zero); if
`total_bounds` raises, fall back to fixed ranges roughly suitable for
Mauritania. -/
def tdRanges (f : GeoFrame) : (ℚ × ℚ) × (ℚ × ℚ) :=
  match f.bounds with
  | some (minx, miny, maxx, maxy) =>
    let padX : ℚ := if maxx - minx ≠ 0 then (maxx - minx) * (8 / 100) else 1000000
    let padY : ℚ := if maxy - miny ≠ 0 then (maxy - miny) * (8 / 100) else 800000
    ((minx - padX, maxx + padX), (miny - padY, maxy + padY))
  | none => ((-2000000, -500000), (1600000, 3200000))

/-- The data returned by `create_td_election_map` /
`create_simplified_election_map`: the layout (title and dropdown selector),
the GeoJSON source data (`merged`, `votes_display`, `current_candidat`),
the `LinearColorMapper` bounds (`low`, `high`), the candidate list, and the
merged table. -/
structure TdResult where
  candidats : List String
  merged : List MergedRow
  votesDisplayCol : List ℚ
  currentCandidat : String
  low : ℚ
  high : ℚ
  title : String
  xRange : ℚ × ℚ
  yRange : ℚ × ℚ
  selectValue : String
  selectOptions : List String

/-- Candidate columns of the pivoted year table (`[col for col in
df_pivot.columns if col != 'moughataa']`; the pivot's value columns are
exactly its candidate labels). -/
def tdCandidats (df : List VoteRow) (year : Int) : List String :=
  (pivotTable (filterYear df year)).columns

/-- The merged table of `create_td_election_map` (line 116). -/
def tdMerged (g : Gdf) (df : List VoteRow) (year : Int) : List MergedRow :=
  mergeLeft (tdConvert g).rows (pivotTable (filterYear df year))

/-- `create_td_election_map` (electoral_maps.py lines 28–251), restricted to
the data it computes and returns. Errors model the Python exceptions:
the explicit `ValueError` when no row matches the requested year, the
`IndexError` of `candidats[0]` on an empty candidate list (unreachable once
the year filter is nonempty), and the `ValueError` numpy raises when
`.min()` is taken over the empty `merged[candidats].values`. -/
def createTd (g : Gdf) (dfElections : List VoteRow) (year : Int)
    (titleText : String) (showPlot : Bool) : Except String TdResult :=
  if (filterYear dfElections year).isEmpty then
    .error ("No election data found for year " ++ toString year)
  else
    match tdCandidats dfElections year with
    | [] => .error "list index out of range"
    | c0 :: rest =>
      if (allVotes (tdMerged g dfElections year) (c0 :: rest)).isEmpty then
        .error "zero-size array to reduction operation minimum which has no identity"
      else
        .ok ⟨c0 :: rest, tdMerged g dfElections year,
          (tdMerged g dfElections year).map (fun m => m.votes c0), c0,
          listMin (allVotes (tdMerged g dfElections year) (c0 :: rest)),
          listMax (allVotes (tdMerged g dfElections year) (c0 :: rest)),
          titleText ++ " : " ++ c0,
          (tdRanges (tdConvert g)).1, (tdRanges (tdConvert g)).2,
          c0, c0 :: rest⟩

/-- One row of the merged table of `create_simplified_election_map`: the
row index label (regions; `merge` is on the index there), its geometry, and
the per-candidate vote values after `fillna(0)`. -/
structure SimpRow where
  idx : String
  geom : Nat
  votes : String → ℚ

/-- Vote value of candidate `c` at index label `i` in
`gdf.merge(pd.DataFrame(candidate_votes), left_index=True,
right_index=True, how='left').fillna(0)`: the value of candidate `c`'s
series at `i` when present, else NaN turned into 0 by `fillna(0)` (both
when `i` is missing from the series and when `i` is absent from the whole
vote frame). -/
def simpVotes (candidateVotes : List (String × List (String × ℚ)))
    (i c : String) : ℚ :=
  match candidateVotes.lookup c with
  | some s =>
    match s.lookup i with
    | some v => v
    | none => 0
  | none => 0

/-- The merged table of `create_simplified_election_map` (line 290): a left
merge on the index, geometry rows authoritative. -/
def simpMerged (gdfIdx : List (String × Nat))
    (candidateVotes : List (String × List (String × ℚ))) : List SimpRow :=
  gdfIdx.map (fun p => ⟨p.1, p.2, fun c => simpVotes candidateVotes p.1 c⟩)

/-- `merged[candidats].values` of the simplified builder, flattened. -/
def allVotesSimp (merged : List SimpRow) (candidats : List String) : List ℚ :=
  (merged.map (fun m => candidats.map m.votes)).flatten

/-- The data returned by `create_simplified_election_map`. -/
structure SimpResult where
  candidats : List String
  merged : List SimpRow
  votesDisplayCol : List ℚ
  currentCandidat : String
  low : ℚ
  high : ℚ
  title : String
  selectValue : String
  selectOptions : List String

/-- `create_simplified_election_map` (electoral_maps.py lines 254–364),
restricted to the data it computes and returns. `candidats` is
`list(candidate_votes.keys())` in insertion order; the errors model the
`IndexError` of `candidats[0]` on an empty dict and the numpy `ValueError`
on an empty `merged[candidats].values`. -/
def createSimplified (gdfIdx : List (String × Nat))
    (candidateVotes : List (String × List (String × ℚ)))
    (titleText : String) (showPlot : Bool) : Except String SimpResult :=
  match candidateVotes.map Prod.fst with
  | [] => .error "list index out of range"
  | c0 :: rest =>
    if (allVotesSimp (simpMerged gdfIdx candidateVotes) (c0 :: rest)).isEmpty then
      .error "zero-size array to reduction operation minimum which has no identity"
    else
      .ok ⟨c0 :: rest, simpMerged gdfIdx candidateVotes,
        (simpMerged gdfIdx candidateVotes).map (fun m => m.votes c0), c0,
        listMin (allVotesSimp (simpMerged gdfIdx candidateVotes) (c0 :: rest)),
        listMax (allVotesSimp (simpMerged gdfIdx candidateVotes) (c0 :: rest)),
        titleText ++ " : " ++ c0, c0, c0 :: rest⟩

/-- The message of the exception `to_crs` raises when it fails (modelled;
the concrete text is irrelevant, only that the exception escapes). -/
def toCrsFailMsg : String := "to_crs conversion failed"

/-- CRS handling of `bokeh_td_election_map` (plots.py lines 211–218): if
the CRS is missing or not EPSG:3857, try `to_crs(epsg=3857)`; the `except`
block retries the very same `to_crs` call unguarded, so when the
conversion fails, the retry fails too and the exception propagates to the
caller. -/
def bokehConvert (g : Gdf) : Except String GeoFrame :=
  if g.crs = some 3857 then .ok g.frame
  else
    match g.conv3857 with
    | some f => .ok f
    | none => .error toCrsFailMsg

/-- Color-mapper bounds of `bokeh_td_election_map` (plots.py lines
224–230): drop missing values; on an empty result use (0, 1); otherwise
(min, max), with the lower bound replaced by 0 when min equals max. -/
def bokehColorBounds (col : List (Option ℚ)) : ℚ × ℚ :=
  let vals := col.filterMap id
  if vals.isEmpty then (0, 1)
  else
    let low := listMin vals
    let high := listMax vals
    if low = high then (0, high) else (low, high)

/-- Auto-centering of `bokeh_td_election_map` (plots.py lines 291–300):
center a zoom-scaled window on the bounding-box centroid; if the
computation raises, `pass` leaves the figure's initial ranges unchanged. -/
def bokehAutoCenter (f : GeoFrame) (zoom : Int) (xr yr : ℚ × ℚ) :
    (ℚ × ℚ) × (ℚ × ℚ) :=
  match f.bounds with
  | some (minx, miny, maxx, maxy) =>
    let cx := (minx + maxx) / 2
    let cy := (miny + maxy) / 2
    ((cx - 1000000 / 2 ^ (zoom - 1), cx + 1000000 / 2 ^ (zoom - 1)),
     (cy - 800000 / 2 ^ (zoom - 1), cy + 800000 / 2 ^ (zoom - 1)))
  | none => (xr, yr)

/-- The data returned by `bokeh_td_election_map`: the color-mapper bounds
and the figure's x/y ranges. -/
structure BokehResult where
  low : ℚ
  high : ℚ
  xRange : ℚ × ℚ
  yRange : ℚ × ℚ
deriving DecidableEq, Repr

/-- `bokeh_td_election_map` (plots.py lines 167–305), restricted to the
data it computes and returns: CRS conversion (whose failure propagates),
color bounds over the value column (passed here as the column's contents,
`none` for NaN), and the auto-centered viewport starting from the figure's
initial ranges. -/
def bokehTdElectionMap (g : Gdf) (col : List (Option ℚ)) (zoom : Int)
    (xrInit yrInit : ℚ × ℚ) (showPlot : Bool) : Except String BokehResult :=
  match bokehConvert g with
  | .error e => .error e
  | .ok f =>
    let b := bokehColorBounds col
    let rg := bokehAutoCenter f zoom xrInit yrInit
    .ok ⟨b.1, b.2, rg.1, rg.2⟩

/-- The style bundle of `styles.py`, restricted to the palette used by
`_get_color`. -/
structure BiboStyle where
  palette : List String
deriving DecidableEq, Repr

/-- `DEFAULT_STYLE = BiboStyle()` with its six default palette entries
(styles.py lines 18–27). -/
def DEFAULT_STYLE : BiboStyle :=
  ⟨["#2E86AB", "#F18F01", "#C73E1D", "#6A4C93", "#2A9D8F", "#264653"]⟩

/-- `_get_color(idx)` (plots.py lines 29–30):
`DEFAULT_STYLE.palette[idx % len(DEFAULT_STYLE.palette)]`. A Python list
index taken modulo the length is always in bounds, so the lookup total
with any default is faithful; the theorem below shows the default case is
never reached. -/
def getColor (idx : Nat) : String :=
  DEFAULT_STYLE.palette.getD (idx % DEFAULT_STYLE.palette.length) ""

instance : Inhabited MergedRow := ⟨⟨"", 0, fun _ => 0⟩⟩

instance : Inhabited SimpRow := ⟨⟨"", 0, fun _ => 0⟩⟩

instance : Inhabited TdResult :=
  ⟨⟨[], [], [], "", 0, 0, "", (0, 0), (0, 0), "", []⟩⟩

instance : Inhabited SimpResult := ⟨⟨[], [], [], "", 0, 0, "", "", []⟩⟩

/-- Projection of a `createTd` outcome to its result (used to name the
concrete result of a successful run in closed statements). -/
def tdResOf (e : Except String TdResult) : TdResult :=
  match e with
  | .ok r => r
  | .error _ => default

/-- Projection of a `createSimplified` outcome to its result. -/
def simpResOf (e : Except String SimpResult) : SimpResult :=
  match e with
  | .ok r => r
  | .error _ => default

/-- Color-mapper bounds of a `createTd` outcome, when it succeeded. -/
def tdLowHigh (e : Except String TdResult) : Option (ℚ × ℚ) :=
  match e with
  | .ok r => some (r.low, r.high)
  | .error _ => none

/-- Concrete geometry input used in closed statements: regions A and B,
already in EPSG:3857, with ordinary bounds. -/
def gdfEx : Gdf :=
  ⟨⟨[⟨"A", 1⟩, ⟨"B", 2⟩], some (0, 0, 100, 100)⟩, some 3857, none⟩

/-- Concrete long vote table used in closed statements: the end-to-end
scenario of the spec, year 2024, candidates c1 and c2, region B missing
for c2. -/
def dfEx : List VoteRow :=
  [⟨"A", "c1", 2024, 10⟩, ⟨"B", "c1", 2024, 20⟩, ⟨"A", "c2", 2024, 5⟩]

/-- Concrete vote table whose only rows are for year 2023. -/
def dfOld : List VoteRow := [⟨"A", "c1", 2023, 10⟩]

/-- Concrete vote table in which every vote value equals 5. -/
def dfFlat : List VoteRow := [⟨"A", "c1", 2024, 5⟩, ⟨"B", "c1", 2024, 5⟩]

/-- Concrete geometry input with no CRS whose `to_crs` fails (geopandas
always raises on a naive geometry). -/
def gdfNoCrs : Gdf := ⟨⟨[⟨"A", 1⟩], some (0, 0, 100, 100)⟩, none, none⟩

/-- Concrete simplified-builder geometry: index labels A and B. -/
def gdfIdxEx : List (String × Nat) := [("A", 1), ("B", 2)]

/-- Concrete simplified-builder vote dict: c1 covers A only, c2 covers A
and B. -/
def cvEx : List (String × List (String × ℚ)) :=
  [("c1", [("A", 10)]), ("c2", [("A", 5), ("B", 20)])]

theorem foldlMin_le_init (xs : List ℚ) (a : ℚ) : xs.foldl min a ≤ a := by
  induction xs generalizing a with
  | nil => exact le_refl _
  | cons x xs ih => exact le_trans (ih _) (min_le_left _ _)

theorem foldlMin_le_mem (xs : List ℚ) (a x : ℚ) (hx : x ∈ xs) :
    xs.foldl min a ≤ x := by
  induction xs generalizing a with
  | nil => cases hx
  | cons y ys ih =>
    rcases List.mem_cons.mp hx with h | h
    · subst h
      exact le_trans (foldlMin_le_init ys _) (min_le_right _ _)
    · exact ih _ h

theorem foldlMin_mem (xs : List ℚ) (a : ℚ) :
    xs.foldl min a = a ∨ xs.foldl min a ∈ xs := by
  induction xs generalizing a with
  | nil => exact .inl rfl
  | cons y ys ih =>
    rcases ih (min a y) with h | h
    · rcases le_total a y with hay | hya
      · exact .inl (by rw [List.foldl_cons, h, min_eq_left hay])
      · refine .inr ?_
        rw [List.foldl_cons, h, min_eq_right hya]
        exact List.mem_cons_self y ys
    · exact .inr (List.mem_cons_of_mem y h)

theorem foldlMax_ge_init (xs : List ℚ) (a : ℚ) : a ≤ xs.foldl max a := by
  induction xs generalizing a with
  | nil => exact le_refl _
  | cons x xs ih => exact le_trans (le_max_left _ _) (ih _)

theorem foldlMax_ge_mem (xs : List ℚ) (a x : ℚ) (hx : x ∈ xs) :
    x ≤ xs.foldl max a := by
  induction xs generalizing a with
  | nil => cases hx
  | cons y ys ih =>
    rcases List.mem_cons.mp hx with h | h
    · subst h
      exact le_trans (le_max_right _ _) (foldlMax_ge_init ys _)
    · exact ih _ h

theorem foldlMax_mem (xs : List ℚ) (a : ℚ) :
    xs.foldl max a = a ∨ xs.foldl max a ∈ xs := by
  induction xs generalizing a with
  | nil => exact .inl rfl
  | cons y ys ih =>
    rcases ih (max a y) with h | h
    · rcases le_total a y with hay | hya
      · refine .inr ?_
        rw [List.foldl_cons, h, max_eq_right hay]
        exact List.mem_cons_self y ys
      · exact .inl (by rw [List.foldl_cons, h, max_eq_left hya])
    · exact .inr (List.mem_cons_of_mem y h)

theorem listMin_le (l : List ℚ) (x : ℚ) (hx : x ∈ l) : listMin l ≤ x := by
  cases l with
  | nil => cases hx
  | cons y ys =>
    rcases List.mem_cons.mp hx with h | h
    · rw [h]; exact foldlMin_le_init ys y
    · exact foldlMin_le_mem ys y x h

theorem listMin_mem (l : List ℚ) (hl : l ≠ []) : listMin l ∈ l := by
  cases l with
  | nil => exact absurd rfl hl
  | cons y ys =>
    rcases foldlMin_mem ys y with h | h
    · have e : listMin (y :: ys) = ys.foldl min y := rfl
      rw [e, h]
      exact List.mem_cons_self y ys
    · exact List.mem_cons_of_mem y h

theorem listMax_ge (l : List ℚ) (x : ℚ) (hx : x ∈ l) : x ≤ listMax l := by
  cases l with
  | nil => cases hx
  | cons y ys =>
    rcases List.mem_cons.mp hx with h | h
    · rw [h]; exact foldlMax_ge_init ys y
    · exact foldlMax_ge_mem ys y x h

theorem listMax_mem (l : List ℚ) (hl : l ≠ []) : listMax l ∈ l := by
  cases l with
  | nil => exact absurd rfl hl
  | cons y ys =>
    rcases foldlMax_mem ys y with h | h
    · have e : listMax (y :: ys) = ys.foldl max y := rfl
      rw [e, h]
      exact List.mem_cons_self y ys
    · exact List.mem_cons_of_mem y h

theorem createTd_ok_elim (g : Gdf) (df : List VoteRow) (year : Int)
    (t : String) (b : Bool) (r : TdResult)
    (hok : createTd g df year t b = .ok r) :
    ∃ c0 rest, tdCandidats df year = c0 :: rest ∧
      (allVotes (tdMerged g df year) (c0 :: rest)).isEmpty = false ∧
      r = ⟨c0 :: rest, tdMerged g df year,
        (tdMerged g df year).map (fun m => m.votes c0), c0,
        listMin (allVotes (tdMerged g df year) (c0 :: rest)),
        listMax (allVotes (tdMerged g df year) (c0 :: rest)),
        t ++ " : " ++ c0, (tdRanges (tdConvert g)).1,
        (tdRanges (tdConvert g)).2, c0, c0 :: rest⟩ := by
  unfold createTd at hok
  split at hok
  · exact Except.noConfusion hok
  · split at hok
    · exact Except.noConfusion hok
    · rename_i c0 rest hcand
      split at hok
      · exact Except.noConfusion hok
      · rename_i hne
        exact ⟨c0, rest, hcand, Bool.not_eq_true _ ▸ Bool.of_not_eq_true hne,
          (Except.ok.inj hok).symm⟩

theorem createSimplified_ok_elim (gi : List (String × Nat))
    (cv : List (String × List (String × ℚ))) (t : String) (b : Bool)
    (r : SimpResult) (hok : createSimplified gi cv t b = .ok r) :
    ∃ c0 rest, cv.map Prod.fst = c0 :: rest ∧
      (allVotesSimp (simpMerged gi cv) (c0 :: rest)).isEmpty = false ∧
      r = ⟨c0 :: rest, simpMerged gi cv,
        (simpMerged gi cv).map (fun m => m.votes c0), c0,
        listMin (allVotesSimp (simpMerged gi cv) (c0 :: rest)),
        listMax (allVotesSimp (simpMerged gi cv) (c0 :: rest)),
        t ++ " : " ++ c0, c0, c0 :: rest⟩ := by
  unfold createSimplified at hok
  split at hok
  · exact Except.noConfusion hok
  · rename_i c0 rest hcand
    split at hok
    · exact Except.noConfusion hok
    · rename_i hne
      exact ⟨c0, rest, hcand, Bool.of_not_eq_true hne,
        (Except.ok.inj hok).symm⟩

/-- C1: in `create_td_election_map` and `create_simplified_election_map`,
the bounds passed to the `LinearColorMapper` equal the true minimum and
the true maximum over the vote values of all candidate columns of the
merged table: `low` is below and `high` above every such value, and both
are attained by values of the table (global across candidates). -/
theorem c1_color_bounds_global :
    (∀ g df year t b r, createTd g df year t b = .ok r →
      (∀ v ∈ allVotes r.merged r.candidats, r.low ≤ v ∧ v ≤ r.high) ∧
      r.low ∈ allVotes r.merged r.candidats ∧
      r.high ∈ allVotes r.merged r.candidats) ∧
    (∀ gi cv t b r, createSimplified gi cv t b = .ok r →
      (∀ v ∈ allVotesSimp r.merged r.candidats, r.low ≤ v ∧ v ≤ r.high) ∧
      r.low ∈ allVotesSimp r.merged r.candidats ∧
      r.high ∈ allVotesSimp r.merged r.candidats) := by
  constructor
  · intro g df year t b r hok
    obtain ⟨c0, rest, hcand, hne, hr⟩ := createTd_ok_elim g df year t b r hok
    subst hr
    have hnil : allVotes (tdMerged g df year) (c0 :: rest) ≠ [] := by
      intro h0
      rw [h0] at hne
      simp at hne
    exact ⟨fun v hv => ⟨listMin_le _ v hv, listMax_ge _ v hv⟩,
      listMin_mem _ hnil, listMax_mem _ hnil⟩
  · intro gi cv t b r hok
    obtain ⟨c0, rest, hcand, hne, hr⟩ := createSimplified_ok_elim gi cv t b r hok
    subst hr
    have hnil : allVotesSimp (simpMerged gi cv) (c0 :: rest) ≠ [] := by
      intro h0
      rw [h0] at hne
      simp at hne
    exact ⟨fun v hv => ⟨listMin_le _ v hv, listMax_ge _ v hv⟩,
      listMin_mem _ hnil, listMax_mem _ hnil⟩

theorem c1_color_bounds_global_witness :
    (tdResOf (createTd gdfEx dfEx 2024 "T" true)).low ∈
      allVotes (tdResOf (createTd gdfEx dfEx 2024 "T" true)).merged
        (tdResOf (createTd gdfEx dfEx 2024 "T" true)).candidats ∧
    (tdResOf (createTd gdfEx dfEx 2024 "T" true)).high ∈
      allVotes (tdResOf (createTd gdfEx dfEx 2024 "T" true)).merged
        (tdResOf (createTd gdfEx dfEx 2024 "T" true)).candidats :=
  (c1_color_bounds_global.1 gdfEx dfEx 2024 "T" true _ rfl).2

/-- C2 counterexample: with every vote value equal to 5, both color-mapper
bounds of `create_td_election_map` are 5: the lower bound is not strictly
below the single observed value, and the scale is degenerate (`low` equals
`high`), contrary to the claim. -/
theorem c2_nondegenerate_scale_cex :
    tdLowHigh (createTd gdfEx dfFlat 2024 "T" true) = some (5, 5) ∧
    ¬ (5 : ℚ) < 5 := by
  constructor
  · have h1 : pivotValue (filterYear dfFlat 2024) "A" "c1" = 5 := by
      simp [pivotValue, filterYear, dfFlat]
    have h2 : pivotValue (filterYear dfFlat 2024) "B" "c1" = 5 := by
      simp [pivotValue, filterYear, dfFlat]
    have hav : allVotes (tdMerged gdfEx dfFlat 2024) ["c1"] = [5, 5] := by
      have e : allVotes (tdMerged gdfEx dfFlat 2024) ["c1"] =
          [pivotValue (filterYear dfFlat 2024) "A" "c1",
           pivotValue (filterYear dfFlat 2024) "B" "c1"] := rfl
      rw [e, h1, h2]
    have hok : createTd gdfEx dfFlat 2024 "T" true =
        .ok (tdResOf (createTd gdfEx dfFlat 2024 "T" true)) := rfl
    have hlow : (tdResOf (createTd gdfEx dfFlat 2024 "T" true)).low =
        listMin (allVotes (tdMerged gdfEx dfFlat 2024) ["c1"]) := rfl
    have hhigh : (tdResOf (createTd gdfEx dfFlat 2024 "T" true)).high =
        listMax (allVotes (tdMerged gdfEx dfFlat 2024) ["c1"]) := rfl
    rw [hok]
    show some ((tdResOf (createTd gdfEx dfFlat 2024 "T" true)).low,
      (tdResOf (createTd gdfEx dfFlat 2024 "T" true)).high) = some (5, 5)
    rw [hlow, hhigh, hav]
    norm_num [listMin, listMax]
  · norm_num

/-- C2 amended: when the computed vote minimum equals the vote maximum,
`create_td_election_map` and `create_simplified_election_map` apply no
adjustment at all — their color scale is degenerate (`low = high`); only
the single-column `bokeh_td_election_map` forces its lower bound to 0 when
min equals max, and that bound is strictly below the single observed value
exactly when the value is positive. -/
theorem c2_degenerate_scale_amended :
    (∀ g df year t b r, createTd g df year t b = .ok r →
      listMin (allVotes r.merged r.candidats) =
        listMax (allVotes r.merged r.candidats) →
      r.low = r.high) ∧
    (∀ gi cv t b r, createSimplified gi cv t b = .ok r →
      listMin (allVotesSimp r.merged r.candidats) =
        listMax (allVotesSimp r.merged r.candidats) →
      r.low = r.high) ∧
    (∀ col v, col.filterMap id ≠ [] → listMin (col.filterMap id) = v →
      listMax (col.filterMap id) = v → 0 < v →
      (bokehColorBounds col).1 = 0 ∧ (bokehColorBounds col).1 < v) := by
  refine ⟨?_, ?_, ?_⟩
  · intro g df year t b r hok heq
    obtain ⟨c0, rest, hcand, hne, hr⟩ := createTd_ok_elim g df year t b r hok
    subst hr
    exact heq
  · intro gi cv t b r hok heq
    obtain ⟨c0, rest, hcand, hne, hr⟩ := createSimplified_ok_elim gi cv t b r hok
    subst hr
    exact heq
  · intro col v hne hmin hmax hpos
    have hie : (col.filterMap id).isEmpty = false := by
      cases hcol : col.filterMap id with
      | nil => exact absurd hcol hne
      | cons a l => rfl
    have hb : bokehColorBounds col = (0, v) := by
      simp only [bokehColorBounds, hie, Bool.false_eq_true, if_false, hmin,
        hmax, if_pos rfl]
      simp
    rw [hb]
    exact ⟨rfl, hpos⟩

theorem c2_degenerate_scale_amended_witness :
    (tdResOf (createTd gdfEx dfFlat 2024 "T" true)).low =
      (tdResOf (createTd gdfEx dfFlat 2024 "T" true)).high ∧
    (bokehColorBounds [some 2, none]).1 = 0 ∧
    (bokehColorBounds [some 2, none]).1 < 2 := by
  refine ⟨?_, ?_⟩
  · refine c2_degenerate_scale_amended.1 gdfEx dfFlat 2024 "T" true _ rfl ?_
    have h1 : pivotValue (filterYear dfFlat 2024) "A" "c1" = 5 := by
      simp [pivotValue, filterYear, dfFlat]
    have h2 : pivotValue (filterYear dfFlat 2024) "B" "c1" = 5 := by
      simp [pivotValue, filterYear, dfFlat]
    have e : allVotes (tdMerged gdfEx dfFlat 2024) ["c1"] =
        [pivotValue (filterYear dfFlat 2024) "A" "c1",
         pivotValue (filterYear dfFlat 2024) "B" "c1"] := rfl
    show listMin (allVotes (tdMerged gdfEx dfFlat 2024) ["c1"]) =
      listMax (allVotes (tdMerged gdfEx dfFlat 2024) ["c1"])
    rw [e, h1, h2]
    norm_num [listMin, listMax]
  · exact c2_degenerate_scale_amended.2.2 [some 2, none] 2 (by decide)
      rfl rfl (by norm_num)

/-- C4: in both interactive map builders, the initially active candidate is
the first candidate in the defined column order (`candidats[0]`), the
dropdown starts on it, and the rendered `votes_display` column equals that
first candidate's vote column before any interaction. -/
theorem c4_initial_candidate_first :
    (∀ g df year t b r, createTd g df year t b = .ok r →
      r.candidats.head? = some r.currentCandidat ∧
      r.selectValue = r.currentCandidat ∧
      r.votesDisplayCol = r.merged.map (fun m => m.votes r.currentCandidat)) ∧
    (∀ gi cv t b r, createSimplified gi cv t b = .ok r →
      r.candidats.head? = some r.currentCandidat ∧
      r.selectValue = r.currentCandidat ∧
      r.votesDisplayCol = r.merged.map (fun m => m.votes r.currentCandidat)) := by
  constructor
  · intro g df year t b r hok
    obtain ⟨c0, rest, hcand, hne, hr⟩ := createTd_ok_elim g df year t b r hok
    subst hr
    exact ⟨rfl, rfl, rfl⟩
  · intro gi cv t b r hok
    obtain ⟨c0, rest, hcand, hne, hr⟩ := createSimplified_ok_elim gi cv t b r hok
    subst hr
    exact ⟨rfl, rfl, rfl⟩

theorem c4_initial_candidate_first_witness :
    (tdResOf (createTd gdfEx dfEx 2024 "T" true)).candidats.head? =
      some (tdResOf (createTd gdfEx dfEx 2024 "T" true)).currentCandidat ∧
    (simpResOf (createSimplified gdfIdxEx cvEx "T" true)).candidats.head? =
      some (simpResOf (createSimplified gdfIdxEx cvEx "T" true)).currentCandidat :=
  ⟨(c4_initial_candidate_first.1 gdfEx dfEx 2024 "T" true _ rfl).1,
   (c4_initial_candidate_first.2 gdfIdxEx cvEx "T" true _ rfl).1⟩

/-- C5: whenever the loaded vote table has no row for the requested year,
`create_td_election_map` raises the descriptive `ValueError` naming the
year and returns no figure. -/
theorem c5_missing_year_error (g : Gdf) (df : List VoteRow) (year : Int)
    (t : String) (b : Bool) (hno : ∀ vr ∈ df, vr.year ≠ year) :
    createTd g df year t b =
      .error ("No election data found for year " ++ toString year) := by
  have hf : filterYear df year = [] := by
    refine List.filter_eq_nil_iff.mpr ?_
    intro a ha
    simpa using hno a ha
  unfold createTd
  rw [hf]
  rfl

theorem c5_missing_year_error_witness :
    createTd gdfEx dfOld 2024 "T" true =
      .error ("No election data found for year " ++ toString (2024 : Int)) :=
  c5_missing_year_error gdfEx dfOld 2024 "T" true (by decide)

/-- C7: on every input, the whole outcome of `create_td_election_map` and
`create_simplified_election_map` — in particular, on success, the returned
bundle of layout, color mapper, candidate list and merged table — is
independent of the `show_plot` flag, which only controls display. -/
theorem c7_show_flag_independent :
    (∀ g df year t b b', createTd g df year t b = createTd g df year t b') ∧
    (∀ gi cv t b b',
      createSimplified gi cv t b = createSimplified gi cv t b') :=
  ⟨fun _ _ _ _ _ _ => rfl, fun _ _ _ _ _ => rfl⟩

theorem mem_strSort (l : List String) (x : String) : x ∈ strSort l ↔ x ∈ l := by
  simp [strSort]

theorem mem_pivotRegions (rows : List VoteRow) (x : String) :
    x ∈ pivotRegions rows ↔ ∃ vr ∈ rows, vr.moughataa = x := by
  rw [pivotRegions, mem_strSort, List.mem_dedup]
  simp

theorem lookup_some_mem {β : Type} (l : List (String × β)) (a : String) (b : β)
    (h : l.lookup a = some b) : (a, b) ∈ l := by
  induction l with
  | nil => cases h
  | cons p t ih =>
    obtain ⟨k, v⟩ := p
    simp only [List.lookup] at h
    split at h
    · rename_i hbeq
      have hak : a = k := eq_of_beq hbeq
      have hbv : b = v := (Option.some.inj h).symm
      rw [hak, hbv]
      exact List.mem_cons_self _ _
    · exact List.mem_cons_of_mem _ (ih h)

/-- C3: after the left join, every region present in the geometry table but
absent from the (year-filtered) vote table has exactly zero — not a missing
value, which the model does not even admit in a merged row — in every
candidate column; likewise in the simplified builder for an index label
absent from every candidate's vote series. -/
theorem c3_unmatched_regions_zero :
    (∀ g df year t b r m c, createTd g df year t b = .ok r →
      m ∈ r.merged →
      (∀ vr ∈ filterYear df year, vr.moughataa ≠ m.moughataa) →
      m.votes c = 0) ∧
    (∀ gi cv t b r m c, createSimplified gi cv t b = .ok r →
      m ∈ r.merged →
      (∀ p ∈ cv, p.2.lookup m.idx = none) →
      m.votes c = 0) := by
  constructor
  · intro g df year t b r m c hok hm habs
    obtain ⟨c0, rest, hcand, hne, hr⟩ := createTd_ok_elim g df year t b r hok
    subst hr
    have hm' : m ∈ mergeLeft (tdConvert g).rows
        (pivotTable (filterYear df year)) := hm
    obtain ⟨grow, hgrow, hmEq⟩ := List.mem_map.mp hm'
    by_cases hidx : grow.moughataa ∈ (pivotTable (filterYear df year)).index
    · exfalso
      obtain ⟨vr, hvr, hvm⟩ :=
        (mem_pivotRegions (filterYear df year) grow.moughataa).mp hidx
      have hmm : m.moughataa = grow.moughataa := by
        rw [← hmEq]
        simp only [if_pos hidx]
      exact habs vr hvr (by rw [hvm, ← hmm])
    · have hmz : m = ⟨grow.moughataa, grow.geom, fun _ => 0⟩ := by
        rw [← hmEq]
        simp only [if_neg hidx]
      rw [hmz]
  · intro gi cv t b r m c hok hm habs
    obtain ⟨c0, rest, hcand, hne, hr⟩ := createSimplified_ok_elim gi cv t b r hok
    subst hr
    have hm' : m ∈ simpMerged gi cv := hm
    obtain ⟨p, hp, hmEq⟩ := List.mem_map.mp hm'
    have hv : m.votes c = simpVotes cv p.1 c := by rw [← hmEq]
    have hidx : m.idx = p.1 := by rw [← hmEq]
    rw [hv]
    unfold simpVotes
    cases hcv : cv.lookup c with
    | none => simp [hcv]
    | some s =>
      have hsmem : (c, s) ∈ cv := lookup_some_mem cv c s hcv
      have hnone := habs (c, s) hsmem
      rw [hidx] at hnone
      simp [hcv, hnone]

theorem c3_unmatched_regions_zero_witness :
    ((tdResOf (createTd gdfEx dfOld 2023 "T" true)).merged.get
      ⟨1, by decide⟩).votes "c1" = 0 ∧
    ((simpResOf (createSimplified [("A", 1), ("C", 3)] cvEx "T" true)).merged.get
      ⟨1, by decide⟩).votes "c2" = 0 :=
  ⟨c3_unmatched_regions_zero.1 gdfEx dfOld 2023 "T" true _ _ "c1" rfl
      (List.get_mem _ _ _)
      (by
        intro vr hvr
        have hB : ((tdResOf (createTd gdfEx dfOld 2023 "T" true)).merged.get
            ⟨1, by decide⟩).moughataa = "B" := rfl
        rw [hB]
        revert vr
        decide),
   c3_unmatched_regions_zero.2 [("A", 1), ("C", 3)] cvEx "T" true _ _ "c2" rfl
      (List.get_mem _ _ _)
      (by
        intro p hp
        have hC : ((simpResOf (createSimplified [("A", 1), ("C", 3)] cvEx
            "T" true)).merged.get ⟨1, by decide⟩).idx = "C" := rfl
        rw [hC]
        revert p
        decide)⟩

theorem filter_key_unique (rows : List VoteRow) (row : VoteRow)
    (hnd : (rows.map (fun x => (x.moughataa, x.candidate))).Nodup)
    (hmem : row ∈ rows) :
    rows.filter (fun x => decide (x.moughataa = row.moughataa ∧
      x.candidate = row.candidate)) = [row] := by
  induction rows with
  | nil => cases hmem
  | cons a as ih =>
    rw [List.map_cons, List.nodup_cons] at hnd
    obtain ⟨hna, hnd'⟩ := hnd
    rcases List.mem_cons.mp hmem with h | h
    · rw [h]
      rw [List.filter_cons_of_pos (by simp [← h])]
      have hnil : as.filter (fun x => decide (x.moughataa = row.moughataa ∧
          x.candidate = row.candidate)) = [] := by
        refine List.filter_eq_nil_iff.mpr ?_
        intro x hx hpx
        simp only [decide_eq_true_eq] at hpx
        refine hna ?_
        rw [← h, ← hpx.1, ← hpx.2]
        exact List.mem_map_of_mem _ hx
      rw [h] at hnil
      rw [hnil]
    · have hpa : ¬ (a.moughataa = row.moughataa ∧
          a.candidate = row.candidate) := by
        intro hpx
        refine hna ?_
        rw [hpx.1, hpx.2]
        exact List.mem_map_of_mem _ h
      rw [List.filter_cons_of_neg (by simpa using hpa)]
      exact ih hnd' h

/-- C6: for a valid long-format vote table — at most one row per
(region, candidate) key, as after filtering to one year — the wide reshape
with zero fill recovers, at every original row's cell, exactly that row's
vote value (the mean aggregation sees a single value), and the row's region
and candidate appear among the wide table's index and columns, so
unpivoting the wide table back to long form recovers every original
non-missing vote value. -/
theorem c6_pivot_roundtrip (rows : List VoteRow) (row : VoteRow)
    (hnd : (rows.map (fun x => (x.moughataa, x.candidate))).Nodup)
    (hmem : row ∈ rows) :
    row.moughataa ∈ pivotRegions rows ∧
    row.candidate ∈ pivotCandidates rows ∧
    pivotValue rows row.moughataa row.candidate = row.nb_votes := by
  refine ⟨?_, ?_, ?_⟩
  · exact (mem_pivotRegions rows row.moughataa).mpr ⟨row, hmem, rfl⟩
  · rw [pivotCandidates, mem_strSort, List.mem_dedup]
    exact List.mem_map_of_mem _ hmem
  · rw [pivotValue]
    rw [filter_key_unique rows row hnd hmem]
    norm_num

theorem c6_pivot_roundtrip_witness :
    (⟨"A", "c2", 2024, 5⟩ : VoteRow).moughataa ∈ pivotRegions dfEx ∧
    (⟨"A", "c2", 2024, 5⟩ : VoteRow).candidate ∈ pivotCandidates dfEx ∧
    pivotValue dfEx "A" "c2" = 5 :=
  c6_pivot_roundtrip dfEx ⟨"A", "c2", 2024, 5⟩ (by decide) (by decide)

/-- C8 counterexample: on a geometry input without CRS whose `to_crs`
conversion fails, `bokeh_td_election_map` propagates the conversion
exception to the caller instead of recovering with a fallback, contrary to
the claim that such failures are never propagated. -/
theorem c8_fallback_cex :
    bokehTdElectionMap gdfNoCrs [some 1] 6 (0, 1) (0, 1) true =
      .error toCrsFailMsg := rfl

/-- C8 amended: in `create_td_election_map`, coordinate-conversion failure
is caught and leaves the frame unchanged, and bounding-box failure is
caught and replaced by the default Mauritania viewport; in
`bokeh_td_election_map`, bounding-box failure is caught (the initial ranges
are kept), but coordinate-conversion failure is re-raised by the `except`
block's unguarded retry and propagates to the caller. -/
theorem c8_fallback_amended :
    (∀ g, g.conv3857 = none → tdConvert g = g.frame) ∧
    (∀ f, f.bounds = none →
      tdRanges f = ((-2000000, -500000), (1600000, 3200000))) ∧
    (∀ f zoom xr yr, f.bounds = none → bokehAutoCenter f zoom xr yr = (xr, yr)) ∧
    (∀ g col zoom xr yr b, g.crs ≠ some 3857 → g.conv3857 = none →
      bokehTdElectionMap g col zoom xr yr b = .error toCrsFailMsg) := by
  refine ⟨?_, ?_, ?_, ?_⟩
  · intro g hc
    unfold tdConvert
    rw [hc]
    split <;> rfl
  · intro f hb
    unfold tdRanges
    rw [hb]
  · intro f zoom xr yr hb
    unfold bokehAutoCenter
    rw [hb]
  · intro g col zoom xr yr b hcrs hc
    unfold bokehTdElectionMap bokehConvert
    rw [hc, if_neg hcrs]

theorem c8_fallback_amended_witness :
    tdConvert gdfNoCrs = gdfNoCrs.frame ∧
    tdRanges ⟨[], none⟩ = ((-2000000, -500000), (1600000, 3200000)) ∧
    bokehAutoCenter ⟨[], none⟩ 6 (0, 1) (2, 3) = ((0, 1), (2, 3)) ∧
    bokehTdElectionMap gdfNoCrs [some 1] 6 (0, 1) (0, 1) false =
      .error toCrsFailMsg :=
  ⟨c8_fallback_amended.1 gdfNoCrs rfl,
   c8_fallback_amended.2.1 ⟨[], none⟩ rfl,
   c8_fallback_amended.2.2.1 ⟨[], none⟩ 6 (0, 1) (2, 3) rfl,
   c8_fallback_amended.2.2.2 gdfNoCrs [some 1] 6 (0, 1) (0, 1) false
     (by decide) rfl⟩

/-- C9 counterexample: on a value column whose only entry is 0, the
min-equals-max branch of `bokeh_td_election_map` forces the lower bound to
0 and leaves the upper bound 0, so the color scale is degenerate
(`low = high`), contrary to the claim that the scale is never degenerate. -/
theorem c9_single_column_bounds_cex :
    bokehColorBounds [some 0] = (0, 0) := rfl

/-- C9 amended: in `bokeh_td_election_map`, a value column with no
non-missing entries yields the default bounds (0, 1); when the column's
minimum equals its maximum, the lower bound is forced to 0, which makes
the scale non-degenerate exactly when the common value is nonzero (a
column of zeros still yields the degenerate bounds (0, 0)). -/
theorem c9_single_column_bounds_amended :
    (∀ col, col.filterMap id = [] → bokehColorBounds col = (0, 1)) ∧
    (∀ col v, col.filterMap id ≠ [] → listMin (col.filterMap id) = v →
      listMax (col.filterMap id) = v →
      bokehColorBounds col = (0, v) ∧
        (v ≠ 0 → (bokehColorBounds col).1 ≠ (bokehColorBounds col).2)) := by
  constructor
  · intro col hnil
    simp only [bokehColorBounds, hnil]
    rfl
  · intro col v hne hmin hmax
    have hie : (col.filterMap id).isEmpty = false := by
      cases hcol : col.filterMap id with
      | nil => exact absurd hcol hne
      | cons a l => rfl
    have hb : bokehColorBounds col = (0, v) := by
      simp only [bokehColorBounds, hie, Bool.false_eq_true, if_false, hmin,
        hmax, if_pos rfl]
      simp
    refine ⟨hb, ?_⟩
    intro hv
    rw [hb]
    simpa using fun h => hv h.symm

theorem c9_single_column_bounds_amended_witness :
    bokehColorBounds [none] = (0, 1) ∧
    bokehColorBounds [some 7, none] = (0, 7) ∧
    (bokehColorBounds [some 7, none]).1 ≠ (bokehColorBounds [some 7, none]).2 := by
  refine ⟨c9_single_column_bounds_amended.1 [none] rfl, ?_, ?_⟩
  · exact (c9_single_column_bounds_amended.2 [some 7, none] 7 (by decide)
      rfl rfl).1
  · exact (c9_single_column_bounds_amended.2 [some 7, none] 7 (by decide)
      rfl rfl).2 (by norm_num)

/-- C10: for every non-negative index, `_get_color(idx)` returns the
palette entry at position `idx` modulo the palette length, which is 6; the
reduced index is always in bounds (so the lookup never falls back to the
out-of-range default) and the lookup is periodic with period 6. -/
theorem c10_get_color_modulo :
    DEFAULT_STYLE.palette.length = 6 ∧
    ∀ idx : Nat,
      idx % DEFAULT_STYLE.palette.length < DEFAULT_STYLE.palette.length ∧
      DEFAULT_STYLE.palette.get? (idx % DEFAULT_STYLE.palette.length) =
        some (getColor idx) ∧
      getColor (idx + 6) = getColor idx := by
  refine ⟨rfl, fun idx => ⟨?_, ?_, ?_⟩⟩
  · exact Nat.mod_lt idx (by decide)
  · have h6 : idx % DEFAULT_STYLE.palette.length = 0 ∨
        idx % DEFAULT_STYLE.palette.length = 1 ∨
        idx % DEFAULT_STYLE.palette.length = 2 ∨
        idx % DEFAULT_STYLE.palette.length = 3 ∨
        idx % DEFAULT_STYLE.palette.length = 4 ∨
        idx % DEFAULT_STYLE.palette.length = 5 := by
      have hlen : DEFAULT_STYLE.palette.length = 6 := rfl
      rw [hlen]
      omega
    rcases h6 with h | h | h | h | h | h <;>
      simp [getColor, h] <;> rfl
  · have hmod : (idx + 6) % DEFAULT_STYLE.palette.length =
        idx % DEFAULT_STYLE.palette.length := by
      have h : DEFAULT_STYLE.palette.length = 6 := rfl
      rw [h]
      exact Nat.add_mod_right idx 6
    rw [getColor, getColor, hmod]
